import Mathlib

/-!
Shallow embedding of the Gronex/foundry-pf2e sources.

Numbers are modelled exactly: JavaScript's `Math.floor`/`Math.round`/`Math.ceil`
on arithmetic expressions over integers are modelled over `ℚ` with the
corresponding exact operations, and integer-valued document fields are `ℤ`.
Optional (possibly `undefined`) fields are `Option _`; the JavaScript
falsy-coalescing `x || d` on numbers is `JS.orElse`.
-/

namespace JS

/-- JavaScript `Math.floor` on an exact rational. -/
def mathFloor (q : ℚ) : ℤ := ⌊q⌋

/-- JavaScript `Math.round` (round half up): `⌊q + 1/2⌋`. -/
def mathRound (q : ℚ) : ℤ := ⌊q + 1/2⌋

/-- JavaScript `Math.ceil` on an exact rational. -/
def mathCeil (q : ℚ) : ℤ := ⌈q⌉

/-- Foundry's `Math.clamped(num, min, max) = Math.min(max, Math.max(num, min))`. -/
def clamped (num lo hi : ℤ) : ℤ := min hi (max num lo)

/-- JavaScript `x || d` for an optional number: `undefined` and `0` fall back to `d`. -/
def orElse (x : Option ℤ) (d : ℤ) : ℤ :=
  match x with
  | none => d
  | some v => if v = 0 then d else v

/-- JavaScript `parseInt` applied to a field that the model already stores as an integer. -/
def parseInt (n : ℤ) : ℤ := n

end JS

namespace Actor

/-! ## `ActorPF2e.prepareData` / `_prepareCharacterData` (src/unnamed/part_000)

The actor's `data` tree, restricted to the fields this preparation phase reads
and writes.  Collections iterated with `Object.values` are lists; the
`data.abilities` object, which is only ever indexed by an ability key, is a
total map `String → AbilityEntry`. -/

structure AbilityEntry where
  value : ℤ
  mod : ℤ
  deriving Repr, DecidableEq

structure SaveEntry where
  rank : ℤ
  ability : String
  item : ℤ
  value : ℤ
  breakdown : String
  deriving Repr, DecidableEq

structure MartialEntry where
  rank : ℤ
  value : ℤ
  breakdown : String
  deriving Repr, DecidableEq

structure PerceptionEntry where
  rank : ℤ
  ability : String
  item : ℤ
  value : ℤ
  breakdown : String
  deriving Repr, DecidableEq

structure SpellDCEntry where
  rank : ℤ
  item : ℤ
  value : ℤ
  dc : ℤ
  breakdown : String
  deriving Repr, DecidableEq

structure SkillEntry where
  rank : ℤ
  ability : String
  item : ℤ
  armor : Bool
  mod : ℤ
  value : ℤ
  breakdown : String
  deriving Repr, DecidableEq

@[ext]
structure CharacterData where
  abilities : String → AbilityEntry
  saves : List SaveEntry
  martial : List MartialEntry
  perception : PerceptionEntry
  spelldc : SpellDCEntry
  /-- `data.attributes.spellcasting.value` (an ability key; `""` models a falsy value). -/
  spellcasting : String
  skills : List SkillEntry
  /-- `data.attributes.ac.check` (may be `undefined`). -/
  ac_check : Option ℤ
  level : ℤ
  xp_value : ℤ
  xp_max : ℤ
  xp_pct : ℚ

/-- `for (let abl of Object.values(data.abilities)) abl.mod = Math.floor((abl.value - 10) / 2);` -/
def prepareAbilities (f : String → AbilityEntry) : String → AbilityEntry :=
  fun k =>
    let abl := f k
    { abl with mod := JS.mathFloor (((abl.value : ℚ) - 10) / 2) }

/-- One iteration of the saves loop in `_prepareCharacterData`. -/
def prepareSave (lvl : ℤ) (ab : String → AbilityEntry) (save : SaveEntry) : SaveEntry :=
  let p := if save.rank ≠ 0 then save.rank * 2 + lvl else 0
  let m := (ab save.ability).mod
  { save with
    value := m + p + save.item
    breakdown := save.ability ++ " modifier(" ++ toString m ++ ") + proficiency(" ++
      toString p ++ ") + item bonus(" ++ toString save.item ++ ")" }

/-- One iteration of the martial loop in `_prepareCharacterData`. -/
def prepareMartial (lvl : ℤ) (skl : MartialEntry) : MartialEntry :=
  let p := if skl.rank ≠ 0 then skl.rank * 2 + lvl else 0
  { skl with
    value := p
    breakdown := "proficiency(" ++ toString p ++ ")" }

/-- The perception block of `_prepareCharacterData`. -/
def preparePerception (lvl : ℤ) (ab : String → AbilityEntry) (per : PerceptionEntry) :
    PerceptionEntry :=
  let p := if per.rank ≠ 0 then per.rank * 2 + lvl else 0
  let m := (ab per.ability).mod
  { per with
    value := m + p + per.item
    breakdown := per.ability ++ " modifier(" ++ toString m ++ ") + proficiency(" ++
      toString p ++ ") + item bonus(" ++ toString per.item ++ ")" }

/-- The spell-DC block of `_prepareCharacterData`
(`spellAbl = data.attributes.spellcasting.value || "int"`). -/
def prepareSpellDC (lvl : ℤ) (ab : String → AbilityEntry) (spellcasting : String)
    (dcE : SpellDCEntry) : SpellDCEntry :=
  let p := if dcE.rank ≠ 0 then dcE.rank * 2 + lvl else 0
  let spellAbl := if spellcasting = "" then "int" else spellcasting
  let m := (ab spellAbl).mod
  { dcE with
    value := m + p + dcE.item
    dc := m + p + dcE.item + 10
    breakdown := "10 + " ++ spellAbl ++ " modifier(" ++ toString m ++ ") + proficiency(" ++
      toString p ++ ") + item bonus(" ++ toString dcE.item ++ ")" }

/-- One iteration of the skill loop in `_prepareCharacterData`
(`armorCheckPenalty = skl.armor ? (data.attributes.ac.check || 0) : 0`). -/
def prepareSkill (lvl : ℤ) (ab : String → AbilityEntry) (acCheck : Option ℤ)
    (skl : SkillEntry) : SkillEntry :=
  let p := if skl.rank ≠ 0 then skl.rank * 2 + lvl else 0
  let m := (ab skl.ability).mod
  if skl.armor then
    let acp := JS.orElse acCheck 0
    { skl with
      mod := m
      value := m + p + skl.item + acp
      breakdown := skl.ability ++ " modifier(" ++ toString m ++ ") + proficiency(" ++
        toString p ++ ") + item bonus(" ++ toString skl.item ++ ") + armor check penalty(" ++
        toString acp ++ ")" }
  else
    { skl with
      mod := m
      value := m + p + skl.item
      breakdown := skl.ability ++ " modifier(" ++ toString m ++ ") + proficiency(" ++
        toString p ++ ") + item bonus(" ++ toString skl.item ++ ")" }

/-- `ActorPF2e.prepareData` followed by `_prepareCharacterData` for a character actor:
ability modifiers, then level/xp normalization and the save/martial/perception/
spell-DC/skill formulas, each overwriting the derived fields in place. -/
def prepareData (d : CharacterData) : CharacterData :=
  { d with
    abilities := prepareAbilities d.abilities
    level := JS.parseInt d.level
    xp_max := 1000
    xp_pct := min ((JS.mathRound ((d.xp_value : ℚ) * 100 / 1000) : ℚ)) (199 / 2)
    saves := d.saves.map (prepareSave (JS.parseInt d.level) (prepareAbilities d.abilities))
    martial := d.martial.map (prepareMartial (JS.parseInt d.level))
    perception := preparePerception (JS.parseInt d.level) (prepareAbilities d.abilities)
      d.perception
    spelldc := prepareSpellDC (JS.parseInt d.level) (prepareAbilities d.abilities)
      d.spellcasting d.spelldc
    skills := d.skills.map
      (prepareSkill (JS.parseInt d.level) (prepareAbilities d.abilities) d.ac_check) }

/-! ### `ActorPF2e.applyDamage` (src/unnamed/part_000) -/

structure HPData where
  temp : ℤ
  value : ℤ
  max : ℤ
  deriving Repr, DecidableEq

/-- `value = Math.floor(parseFloat(roll...) * multiplier)`. -/
def applyDamageValue (rollTotal multiplier : ℚ) : ℤ := JS.mathFloor (rollTotal * multiplier)

/-- The per-token body of `ActorPF2e.applyDamage`: temporary hit points absorb
the damage first, and the remaining hit points are clamped to `[0, hp.max]`. -/
def applyDamageToken (value : ℤ) (hp : HPData) : HPData :=
  let tmp := JS.parseInt hp.temp
  let dt := if value > 0 then min tmp value else 0
  { hp with
    temp := tmp - dt
    value := JS.clamped (hp.value - (value - dt)) 0 hp.max }

theorem prepareAbilities_idem (f : String → AbilityEntry) :
    prepareAbilities (prepareAbilities f) = prepareAbilities f := rfl

theorem prepareSave_idem (lvl : ℤ) (ab : String → AbilityEntry) (s : SaveEntry) :
    prepareSave lvl ab (prepareSave lvl ab s) = prepareSave lvl ab s := rfl

theorem prepareMartial_idem (lvl : ℤ) (s : MartialEntry) :
    prepareMartial lvl (prepareMartial lvl s) = prepareMartial lvl s := rfl

theorem preparePerception_idem (lvl : ℤ) (ab : String → AbilityEntry) (p : PerceptionEntry) :
    preparePerception lvl ab (preparePerception lvl ab p) = preparePerception lvl ab p := rfl

theorem prepareSpellDC_idem (lvl : ℤ) (ab : String → AbilityEntry) (sc : String)
    (e : SpellDCEntry) : prepareSpellDC lvl ab sc (prepareSpellDC lvl ab sc e) =
      prepareSpellDC lvl ab sc e := rfl

theorem prepareSkill_idem (lvl : ℤ) (ab : String → AbilityEntry) (ac : Option ℤ)
    (s : SkillEntry) : prepareSkill lvl ab ac (prepareSkill lvl ab ac s) =
      prepareSkill lvl ab ac s := by
  unfold prepareSkill
  cases h : s.armor <;> simp [h]

theorem map_self_idem {α : Type} (F : α → α) (h : ∀ x, F (F x) = F x) :
    ∀ l : List α, (l.map F).map F = l.map F
  | [] => rfl
  | x :: xs => by
    simp only [List.map_cons, List.cons.injEq]
    exact ⟨h x, map_self_idem F h xs⟩

end Actor

namespace Actor

/-- C2: Running the data-preparation pipeline (ability modifiers plus the
character-specific phase) twice in succession on unchanged source data yields
derived output identical to running it once: every derived field (ability mod,
save/martial/perception/spell-DC/skill value and breakdown, xp.pct) is
overwritten rather than accumulated, so `prepareData` is idempotent. -/
theorem prepareData_idempotent (d : CharacterData) :
    prepareData (prepareData d) = prepareData d := by
  simp only [prepareData, JS.parseInt, prepareAbilities_idem]
  congr 1
  · exact map_self_idem _ (prepareSave_idem _ _) d.saves
  · exact map_self_idem _ (prepareMartial_idem _) d.martial
  · exact map_self_idem _ (prepareSkill_idem _ _ _) d.skills

end Actor

namespace Actor

/-- C4: For every save, martial skill, perception, spell DC, and skill of a
character actor, the proficiency term computed during data preparation is 0
when the proficiency rank is 0 regardless of level, and equals rank*2 + level
otherwise (e.g., rank 2 at level 5 gives 9). -/
theorem proficiency_term_correct (lvl : ℤ) (ab : String → AbilityEntry)
    (s : SaveEntry) (mE : MartialEntry) (per : PerceptionEntry) (dcE : SpellDCEntry)
    (sc : String) (sk : SkillEntry) (ac : Option ℤ) :
    ((prepareSave lvl ab s).value =
        (ab s.ability).mod + (if s.rank = 0 then 0 else s.rank * 2 + lvl) + s.item)
    ∧ ((prepareMartial lvl mE).value = (if mE.rank = 0 then 0 else mE.rank * 2 + lvl))
    ∧ ((preparePerception lvl ab per).value =
        (ab per.ability).mod + (if per.rank = 0 then 0 else per.rank * 2 + lvl) + per.item)
    ∧ ((prepareSpellDC lvl ab sc dcE).value =
        (ab (if sc = "" then "int" else sc)).mod
          + (if dcE.rank = 0 then 0 else dcE.rank * 2 + lvl) + dcE.item)
    ∧ ((prepareSkill lvl ab ac sk).value =
        (ab sk.ability).mod + (if sk.rank = 0 then 0 else sk.rank * 2 + lvl) + sk.item
          + (if sk.armor then JS.orElse ac 0 else 0))
    ∧ (prepareMartial 5 { rank := 2, value := 0, breakdown := "" }).value = 9 := by
  refine ⟨?_, ?_, ?_, ?_, ?_, by decide⟩
  · by_cases h : s.rank = 0 <;> simp [prepareSave, h]
  · by_cases h : mE.rank = 0 <;> simp [prepareMartial, h]
  · by_cases h : per.rank = 0 <;> simp [preparePerception, h]
  · by_cases h : dcE.rank = 0 <;> simp [prepareSpellDC, h]
  · by_cases h : sk.rank = 0 <;> cases ha : sk.armor <;> simp [prepareSkill, h, ha]

/-- C5: For every character save and skill, the aggregated value equals
ability modifier + proficiency + item bonus (plus the armor-check-penalty term
when the skill's armor flag is set), and the breakdown string enumerates each
addend with its label and numeric contribution in the fixed order: ability
modifier, proficiency, item bonus, then (when applicable) armor check penalty. -/
theorem save_skill_value_and_breakdown (lvl : ℤ) (ab : String → AbilityEntry)
    (s : SaveEntry) (sk : SkillEntry) (ac : Option ℤ) :
    ((prepareSave lvl ab s).value =
        (ab s.ability).mod + (if s.rank = 0 then 0 else s.rank * 2 + lvl) + s.item)
    ∧ ((prepareSave lvl ab s).breakdown =
        s.ability ++ " modifier(" ++ toString (ab s.ability).mod ++ ") + proficiency(" ++
          toString (if s.rank = 0 then 0 else s.rank * 2 + lvl) ++ ") + item bonus(" ++
          toString s.item ++ ")")
    ∧ ((prepareSkill lvl ab ac sk).value =
        (ab sk.ability).mod + (if sk.rank = 0 then 0 else sk.rank * 2 + lvl) + sk.item
          + (if sk.armor then JS.orElse ac 0 else 0))
    ∧ ((prepareSkill lvl ab ac sk).breakdown =
        if sk.armor then
          sk.ability ++ " modifier(" ++ toString (ab sk.ability).mod ++ ") + proficiency(" ++
            toString (if sk.rank = 0 then 0 else sk.rank * 2 + lvl) ++ ") + item bonus(" ++
            toString sk.item ++ ") + armor check penalty(" ++ toString (JS.orElse ac 0) ++ ")"
        else
          sk.ability ++ " modifier(" ++ toString (ab sk.ability).mod ++ ") + proficiency(" ++
            toString (if sk.rank = 0 then 0 else sk.rank * 2 + lvl) ++ ") + item bonus(" ++
            toString sk.item ++ ")") := by
  refine ⟨?_, ?_, ?_, ?_⟩
  · by_cases h : s.rank = 0 <;> simp [prepareSave, h]
  · by_cases h : s.rank = 0 <;> simp [prepareSave, h]
  · by_cases h : sk.rank = 0 <;> cases ha : sk.armor <;> simp [prepareSkill, h, ha]
  · by_cases h : sk.rank = 0 <;> cases ha : sk.armor <;> simp [prepareSkill, h, ha]

/-- C6: For every ability score value v, the ability modifier computed by data
preparation equals floor((v - 10) / 2); in particular 10 and 11 map to 0,
12 to 1, 9 to -1, and 18 to 4. -/
theorem ability_modifier_floor (f : String → AbilityEntry) (k : String) :
    ((prepareAbilities f k).mod = ⌊(((f k).value : ℚ) - 10) / 2⌋)
    ∧ (prepareAbilities (fun _ => { value := 10, mod := 7 }) "str").mod = 0
    ∧ (prepareAbilities (fun _ => { value := 11, mod := 7 }) "str").mod = 0
    ∧ (prepareAbilities (fun _ => { value := 12, mod := 7 }) "str").mod = 1
    ∧ (prepareAbilities (fun _ => { value := 9, mod := 7 }) "str").mod = -1
    ∧ (prepareAbilities (fun _ => { value := 18, mod := 7 }) "str").mod = 4 :=
  ⟨rfl, by norm_num [prepareAbilities, JS.mathFloor],
    by norm_num [prepareAbilities, JS.mathFloor],
    by norm_num [prepareAbilities, JS.mathFloor],
    by norm_num [prepareAbilities, JS.mathFloor],
    by norm_num [prepareAbilities, JS.mathFloor]⟩

/-- C9: For a controlled token, `applyDamage` computes v = ⌊rollTotal *
multiplier⌋, consumes temporary hit points first (dt = min(temp, v) when v > 0,
dt = 0 when v ≤ 0, new temp = temp - dt) and sets the hit-point value to
clamp(old - (v - dt), 0, max), so the resulting value lies within [0, hp.max]. -/
theorem applyDamage_temp_first_and_clamped (rollTotal multiplier : ℚ) (v : ℤ)
    (hp : HPData) (hmax : 0 ≤ hp.max) :
    (applyDamageValue rollTotal multiplier = ⌊rollTotal * multiplier⌋)
    ∧ ((applyDamageToken v hp).temp = hp.temp - (if 0 < v then min hp.temp v else 0))
    ∧ ((applyDamageToken v hp).value =
        min hp.max (max (hp.value - (v - (if 0 < v then min hp.temp v else 0))) 0))
    ∧ (0 ≤ (applyDamageToken v hp).value)
    ∧ ((applyDamageToken v hp).value ≤ hp.max) := by
  refine ⟨rfl, rfl, rfl, ?_, ?_⟩
  · exact le_min hmax (le_max_right _ _)
  · exact min_le_left _ _

/-- Witness for `applyDamage_temp_first_and_clamped` at rollTotal 15/2,
multiplier 2, damage 15 against a token with 5 temp hp, 20 hp, 30 max hp. -/
theorem applyDamage_temp_first_and_clamped_witness :
    0 ≤ (HPData.mk 5 20 30).max
    ∧ (0 ≤ (applyDamageToken 15 (HPData.mk 5 20 30)).value
        ∧ (applyDamageToken 15 (HPData.mk 5 20 30)).value ≤ (HPData.mk 5 20 30).max) :=
  ⟨by decide,
    (applyDamage_temp_first_and_clamped (15 / 2) 2 15 (HPData.mk 5 20 30) (by decide)).2.2.2.1,
    (applyDamage_temp_first_and_clamped (15 / 2) 2 15 (HPData.mk 5 20 30) (by decide)).2.2.2.2⟩

end Actor

namespace Crafting

/-! ## `CraftingEntry` (src/src/module/actor/character/crafting/entry.ts)

A `PreparedFormula` extends a `CraftingFormula` with optional quantity,
expended and signature-item fields; the formula item contributes its uuid,
level, traits and (for consumables) consumable type.  The async methods
persist by calling `updateActorEntryFormulas`, which issues one actor update;
a method is modelled as returning `some newEntry` when it reaches that call
and `none` when it returns early without touching the entry. -/

structure PreparedFormula where
  uuid : String
  level : ℤ
  traits : List String
  /-- `some c` when `formula.item.isOfType("consumable")` with consumable type `c`. -/
  consumableType : Option String
  quantity : Option ℤ
  expended : Bool
  isSignatureItem : Bool
  deriving Repr, DecidableEq

structure CraftingEntry where
  preparedFormulas : List PreparedFormula
  isAlchemical : Bool
  maxSlots : ℤ
  maxItemLevel : ℤ
  requiredTraits : List (List String)
  fieldDiscovery : Option String
  batchSize : Option ℤ
  fieldDiscoveryBatchSize : Option ℤ
  maxFieldDiscoveryItemLevel : Option ℤ
  deriving Repr, DecidableEq

/-- `get reagentCost()`: 0 for non-alchemical entries, otherwise the sum over
prepared formulas of `Math.ceil(quantity / formulaBatchSize)` where the batch
size is `fieldDiscoveryBatchSize || 3` for field-discovery-eligible formulas
(trait/consumable-type match against `fieldDiscovery` or signature item, within
`maxFieldDiscoveryItemLevel`) and `batchSize || 2` otherwise; the quantity is
`formula.quantity || 1`. -/
def reagentCost (e : CraftingEntry) : ℤ :=
  if e.isAlchemical = false then 0 else
  e.preparedFormulas.foldl
    (fun sum formula =>
      let options := formula.traits ++
        (match formula.consumableType with | some c => [c] | none => [])
      let fdLevelOk :=
        match e.maxFieldDiscoveryItemLevel with
        | none => true
        | some m => decide (formula.level ≤ m)
      let fdMatch :=
        (match e.fieldDiscovery with
          | some fd => options.contains fd
          | none => false) || formula.isSignatureItem
      let formulaBatchSize :=
        if fdLevelOk && fdMatch then JS.orElse e.fieldDiscoveryBatchSize 3
        else JS.orElse e.batchSize 2
      sum + JS.mathCeil ((JS.orElse formula.quantity 1 : ℚ) / (formulaBatchSize : ℚ)))
    0

/-- The warnings `checkEntryRequirements` can surface through
`ui.notifications.warn`. -/
inductive CraftWarning where
  | characterLevel
  | maxItemLevel
  | itemMissingTraits
  deriving Repr, DecidableEq

/-- `checkEntryRequirements(formula)`: returns whether the formula may be
prepared, together with the warning notified on failure.  The slots-full
branch (`this.maxSlots && this.preparedFormulas.length >= this.maxSlots`)
returns `false` without notifying any warning. -/
def checkEntryRequirements (actorLevel : ℤ) (e : CraftingEntry) (formula : PreparedFormula) :
    Bool × List CraftWarning :=
  if e.maxSlots ≠ 0 ∧ (e.preparedFormulas.length : ℤ) ≥ e.maxSlots then (false, [])
  else if actorLevel < formula.level then (false, [.characterLevel])
  else if formula.level > e.maxItemLevel then (false, [.maxItemLevel])
  else if ¬ e.requiredTraits.any (fun traits => traits.all (fun t => formula.traits.contains t))
    then (false, [.itemMissingTraits])
  else (true, [])

/-- `prepareFormula(formula)`: invokes `checkEntryRequirements(formula)` but
discards its boolean result, then unconditionally either increments the
quantity of an already-prepared alchemical formula or pushes the formula, and
ends in `updateActorEntryFormulas()` (an actor update is always issued). -/
def prepareFormula (actorLevel : ℤ) (e : CraftingEntry) (formula : PreparedFormula) :
    CraftingEntry :=
  let _check := checkEntryRequirements actorLevel e formula
  if e.isAlchemical && e.preparedFormulas.any (fun f => f.uuid = formula.uuid) then
    let index := e.preparedFormulas.findIdx (fun f => f.uuid = formula.uuid)
    match e.preparedFormulas[index]? with
    | some p =>
      { e with preparedFormulas :=
          e.preparedFormulas.set index { p with quantity := some (JS.orElse p.quantity 1 + 1) } }
    | none => e
  else
    { e with preparedFormulas :=
        e.preparedFormulas ++
          [if e.isAlchemical then { formula with quantity := some 1 } else formula] }

/-- `unprepareFormula(index, itemUUID)`: `none` when there is no prepared
formula at `index` or its uuid differs, otherwise the entry with that formula
spliced out (followed by an actor update). -/
def unprepareFormula (e : CraftingEntry) (index : ℕ) (itemUUID : String) :
    Option CraftingEntry :=
  match e.preparedFormulas[index]? with
  | none => none
  | some prepData =>
    if prepData.uuid ≠ itemUUID then none
    else some { e with preparedFormulas := e.preparedFormulas.eraseIdx index }

/-- `increaseFormulaQuantity(index, itemUUID)`:
`prepData.quantity ? (prepData.quantity += 1) : (prepData.quantity = 2)`. -/
def increaseFormulaQuantity (e : CraftingEntry) (index : ℕ) (itemUUID : String) :
    Option CraftingEntry :=
  match e.preparedFormulas[index]? with
  | none => none
  | some prepData =>
    if prepData.uuid ≠ itemUUID then none
    else
      let q := match prepData.quantity with
        | some v => if v = 0 then 2 else v + 1
        | none => 2
      some { e with preparedFormulas :=
        e.preparedFormulas.set index { prepData with quantity := some q } }

/-- `decreaseFormulaQuantity(index, itemUUID)`: decrements (falsy quantity
becomes 0) and unprepares the formula when the result is ≤ 0. -/
def decreaseFormulaQuantity (e : CraftingEntry) (index : ℕ) (itemUUID : String) :
    Option CraftingEntry :=
  match e.preparedFormulas[index]? with
  | none => none
  | some prepData =>
    if prepData.uuid ≠ itemUUID then none
    else
      let q := match prepData.quantity with
        | some v => if v = 0 then 0 else v - 1
        | none => 0
      if q ≤ 0 then
        unprepareFormula
          { e with preparedFormulas :=
              e.preparedFormulas.set index { prepData with quantity := some q } }
          index itemUUID
      else
        some { e with preparedFormulas :=
          e.preparedFormulas.set index { prepData with quantity := some q } }

/-- `setFormulaQuantity(index, itemUUID, quantity)`: stores the quantity and
unprepares the formula when it is ≤ 0. -/
def setFormulaQuantity (e : CraftingEntry) (index : ℕ) (itemUUID : String) (quantity : ℤ) :
    Option CraftingEntry :=
  match e.preparedFormulas[index]? with
  | none => none
  | some prepData =>
    if prepData.uuid ≠ itemUUID then none
    else if quantity ≤ 0 then
      unprepareFormula
        { e with preparedFormulas :=
            e.preparedFormulas.set index { prepData with quantity := some quantity } }
        index itemUUID
    else
      some { e with preparedFormulas :=
        e.preparedFormulas.set index { prepData with quantity := some quantity } }

/-- `toggleFormulaExpended(index, itemUUID)`: flips `expended`. -/
def toggleFormulaExpended (e : CraftingEntry) (index : ℕ) (itemUUID : String) :
    Option CraftingEntry :=
  match e.preparedFormulas[index]? with
  | none => none
  | some prepData =>
    if prepData.uuid ≠ itemUUID then none
    else some { e with preparedFormulas :=
      e.preparedFormulas.set index { prepData with expended := !prepData.expended } }

/-- `toggleSignatureItem(index, itemUUID)`: flips `isSignatureItem`. -/
def toggleSignatureItem (e : CraftingEntry) (index : ℕ) (itemUUID : String) :
    Option CraftingEntry :=
  match e.preparedFormulas[index]? with
  | none => none
  | some prepData =>
    if prepData.uuid ≠ itemUUID then none
    else some { e with preparedFormulas :=
      e.preparedFormulas.set index { prepData with isSignatureItem := !prepData.isSignatureItem } }

end Crafting

namespace Crafting

/-- The already-prepared formula occupying the single slot of `slotsFullEntry`. -/
def occupyingFormula : PreparedFormula :=
  { uuid := "Item.aaa"
    level := 1
    traits := ["alchemical"]
    consumableType := none
    quantity := none
    expended := false
    isSignatureItem := false }

/-- A crafting entry whose single slot is already filled: `maxSlots = 1` and
one prepared formula. -/
def slotsFullEntry : CraftingEntry :=
  { preparedFormulas := [occupyingFormula]
    isAlchemical := false
    maxSlots := 1
    maxItemLevel := 20
    requiredTraits := [[]]
    fieldDiscovery := none
    batchSize := none
    fieldDiscoveryBatchSize := none
    maxFieldDiscoveryItemLevel := none }

/-- A second formula, not yet prepared, of legal level and traits. -/
def freshFormula : PreparedFormula :=
  { uuid := "Item.bbb"
    level := 1
    traits := ["alchemical"]
    consumableType := none
    quantity := none
    expended := false
    isSignatureItem := false }

/-- C1 (code-bug evidence): with the entry's single slot already filled,
`checkEntryRequirements` returns false — and, for this slots-full violation,
surfaces no warning at all — yet `prepareFormula` still appends the formula
(the prepared count grows from 1 to 2) and reaches the actor update, because
its call to `checkEntryRequirements` discards the boolean result.  The claim
that a violating `prepareFormula` call warns, aborts and leaves the prepared
state unchanged therefore fails on the code. -/
theorem prepareFormula_proceeds_despite_failed_check :
    (checkEntryRequirements 10 slotsFullEntry freshFormula).fst = false
    ∧ (checkEntryRequirements 10 slotsFullEntry freshFormula).snd = []
    ∧ slotsFullEntry.preparedFormulas.length = 1
    ∧ (prepareFormula 10 slotsFullEntry freshFormula).preparedFormulas.length = 2 := by
  decide

theorem foldl_add_map_sum {α : Type} (c : α → ℤ) :
    ∀ (l : List α) (a : ℤ), l.foldl (fun s x => s + c x) a = a + (l.map c).sum
  | [], a => by simp
  | x :: xs, a => by
    simp only [List.foldl_cons, List.map_cons, List.sum_cons]
    rw [foldl_add_map_sum c xs]
    ring

/-- A field-discovery-eligible formula ("bomb" trait) of quantity 4. -/
def bombFormula : PreparedFormula :=
  { uuid := "Item.ccc"
    level := 1
    traits := ["bomb"]
    consumableType := none
    quantity := some 4
    expended := false
    isSignatureItem := false }

/-- An alchemical entry with field discovery on the "bomb" trait, field
discovery batch size 3, and one eligible prepared formula of quantity 4. -/
def fieldDiscoveryEntry : CraftingEntry :=
  { preparedFormulas := [bombFormula]
    isAlchemical := true
    maxSlots := 0
    maxItemLevel := 20
    requiredTraits := [[]]
    fieldDiscovery := some "bomb"
    batchSize := some 2
    fieldDiscoveryBatchSize := some 3
    maxFieldDiscoveryItemLevel := none }

/-- A plain (non-field-discovery) alchemical formula of quantity 3. -/
def elixirFormula : PreparedFormula :=
  { uuid := "Item.ddd"
    level := 1
    traits := ["alchemical"]
    consumableType := none
    quantity := some 3
    expended := false
    isSignatureItem := false }

/-- A plain alchemical formula with undefined quantity. -/
def mutagenFormula : PreparedFormula :=
  { uuid := "Item.eee"
    level := 2
    traits := ["alchemical"]
    consumableType := none
    quantity := none
    expended := false
    isSignatureItem := false }

/-- An alchemical entry with batch size 2, no field discovery and two
non-signature prepared formulas of quantities 3 and undefined. -/
def plainAlchemicalEntry : CraftingEntry :=
  { preparedFormulas := [elixirFormula, mutagenFormula]
    isAlchemical := true
    maxSlots := 0
    maxItemLevel := 20
    requiredTraits := [[]]
    fieldDiscovery := none
    batchSize := some 2
    fieldDiscoveryBatchSize := none
    maxFieldDiscoveryItemLevel := none }

/-- C3: For an alchemical entry with batch size 2 and no field discovery (no
`fieldDiscovery` entry and no signature-item formula), `reagentCost` is the
sum over prepared formulas of ⌈quantity/2⌉ with quantity defaulting to 1; a
field-discovery-eligible formula with field-discovery batch size 3 and
quantity 4 contributes ⌈4/3⌉ = 2; and a non-alchemical entry has
`reagentCost` 0. -/
theorem reagentCost_spec :
    (∀ e : CraftingEntry, e.isAlchemical = true → e.batchSize = some 2 →
      e.fieldDiscovery = none →
      (∀ f ∈ e.preparedFormulas, f.isSignatureItem = false) →
      reagentCost e =
        (e.preparedFormulas.map
          (fun f => JS.mathCeil ((JS.orElse f.quantity 1 : ℚ) / 2))).sum)
    ∧ reagentCost fieldDiscoveryEntry = 2
    ∧ (∀ e : CraftingEntry, e.isAlchemical = false → reagentCost e = 0) := by
  refine ⟨?_, ?_, ?_⟩
  · intro e halch hbatch hfd hsig
    unfold reagentCost
    rw [if_neg (by simp [halch])]
    rw [foldl_add_map_sum]
    rw [List.map_congr_left ?_, zero_add]
    intro f hf
    simp only [hfd, hsig f hf, Bool.or_false]
    simp [hbatch, JS.orElse]
  · simp [reagentCost, fieldDiscoveryEntry, bombFormula, JS.orElse, JS.mathCeil]
    rw [Int.ceil_eq_iff]
    norm_num
  · intro e h
    simp [reagentCost, h]

/-- Witness for `reagentCost_spec`: its universally quantified first part
applied to the concrete `plainAlchemicalEntry` (⌈3/2⌉ + ⌈1/2⌉ = 3). -/
theorem reagentCost_spec_witness :
    reagentCost plainAlchemicalEntry =
      ((plainAlchemicalEntry.preparedFormulas).map
        (fun f => JS.mathCeil ((JS.orElse f.quantity 1 : ℚ) / 2))).sum :=
  reagentCost_spec.1 plainAlchemicalEntry rfl rfl rfl (by decide)

/-- C10: For every index and itemUUID such that the entry has no prepared
formula at that index or the formula at that index has a different uuid, each
of `unprepareFormula`, `increaseFormulaQuantity`, `decreaseFormulaQuantity`,
`setFormulaQuantity`, `toggleFormulaExpended` and `toggleSignatureItem`
returns early: `preparedFormulas` is not modified and no actor update is
issued. -/
theorem guarded_methods_no_update (e : CraftingEntry) (index : ℕ) (itemUUID : String)
    (q : ℤ)
    (h : ∀ p, e.preparedFormulas[index]? = some p → p.uuid ≠ itemUUID) :
    unprepareFormula e index itemUUID = none
    ∧ increaseFormulaQuantity e index itemUUID = none
    ∧ decreaseFormulaQuantity e index itemUUID = none
    ∧ setFormulaQuantity e index itemUUID q = none
    ∧ toggleFormulaExpended e index itemUUID = none
    ∧ toggleSignatureItem e index itemUUID = none := by
  cases hg : e.preparedFormulas[index]? with
  | none =>
    simp [unprepareFormula, increaseFormulaQuantity, decreaseFormulaQuantity,
      setFormulaQuantity, toggleFormulaExpended, toggleSignatureItem, hg]
  | some p =>
    have hu := h p hg
    simp [unprepareFormula, increaseFormulaQuantity, decreaseFormulaQuantity,
      setFormulaQuantity, toggleFormulaExpended, toggleSignatureItem, hg, hu]

/-- Witness for `guarded_methods_no_update`: index 1 is out of range for the
single-formula `slotsFullEntry`, so every method returns `none`. -/
theorem guarded_methods_no_update_witness :
    unprepareFormula slotsFullEntry 1 "Item.zzz" = none
    ∧ increaseFormulaQuantity slotsFullEntry 1 "Item.zzz" = none
    ∧ decreaseFormulaQuantity slotsFullEntry 1 "Item.zzz" = none
    ∧ setFormulaQuantity slotsFullEntry 1 "Item.zzz" 5 = none
    ∧ toggleFormulaExpended slotsFullEntry 1 "Item.zzz" = none
    ∧ toggleSignatureItem slotsFullEntry 1 "Item.zzz" = none :=
  guarded_methods_no_update slotsFullEntry 1 "Item.zzz" 5 (by decide)

end Crafting

namespace Item

/-! ## `ItemPF2e` (src/src/module/item/base.ts) -/

/-- `ItemPF2e#getRollOptions` and `_preUpdate` read these item document
fields.  `slug` may be `null`; `level` is present only for levelled item
types (`"level" in this.system`); `consumableType` is present exactly for
consumables; `isFeature` models `this.isFeature` for feats. -/
structure ItemData where
  id : String
  type : String
  name : String
  slug : Option String
  traits : List String
  level : Option ℤ
  isFeature : Bool
  consumableType : Option String
  deriving Repr, DecidableEq

/-- Modelled from the spec: the `sluggify` utility (imported from `@util`,
whose source is not part of this repository) turns an item name into a slug;
the spec only relies on "slug falling back to the sluggified name", so any
deterministic string function works here.  The claims proved below do not
depend on its exact output. -/
def sluggify (s : String) : String :=
  (s.toLower.replace " " "-")

/-- `ItemPF2e#getRollOptions(prefix)`: id, slug, per-trait and (when present)
level options under the delimited prefix; a `type:` option is unshifted for
the `"item"`/empty prefixes and appended for consumables. -/
def getRollOptions (item : ItemData) (pfx : String) : List String :=
  let slug := match item.slug with
    | some s => s
    | none => sluggify item.name
  let traitOptions := item.traits.map (fun t => "trait:" ++ t)
  let dpfx := if pfx ≠ "" then pfx ++ ":" else ""
  let options := [dpfx ++ "id:" ++ item.id, dpfx ++ slug] ++
    traitOptions.map (fun t => dpfx ++ t)
  let options := match item.level with
    | some n => options ++ [dpfx ++ "level:" ++ toString n]
    | none => options
  let options :=
    if pfx = "item" ∨ pfx = "" then
      (dpfx ++ "type:" ++
        (if item.type = "feat" && item.isFeature then "feature" else item.type)) :: options
    else options
  match item.consumableType with
  | some c => options ++ [dpfx ++ "type:" ++ c]
  | none => options

/-- `getRollOptions()` with its default argument `prefix = this.type`. -/
def getRollOptionsDefault (item : ItemData) : List String :=
  getRollOptions item item.type

/-- The update's change data as far as `_preUpdate` inspects it:
`changed.system?.description?.value`, where the outer `Option` is presence of
the field in the partial update and the inner `Option` distinguishes `null`
from a string. -/
structure ItemUpdateData where
  description : Option (Option String)
  deriving Repr, DecidableEq

/-- `ItemPF2e#_preUpdate`: `if (changed.system?.description?.value === null)
changed.system.description.value = "";` — the change data is coerced, never
rejected, and the update proceeds with the (possibly coerced) data. -/
def preUpdate (changed : ItemUpdateData) : ItemUpdateData :=
  if changed.description = some none then { changed with description := some (some "") }
  else changed

end Item

namespace Item

theorem str_concat_trait (ty t : String) :
    ty ++ ":trait:" ++ t = ty ++ ":" ++ ("trait:" ++ t) := by
  rw [String.append_assoc, String.append_assoc]
  rfl

theorem str_concat_level (ty t : String) :
    ty ++ ":level:" ++ t = ty ++ ":" ++ ("level:" ++ t) := by
  rw [String.append_assoc, String.append_assoc]
  rfl

/-- C7: For every item update whose change data sets the description value to
null, the pre-update hook silently coerces that field to the empty string
rather than rejecting the update, and the update then proceeds with the
coerced change data. -/
theorem preUpdate_coerces_null_description (changed : ItemUpdateData)
    (h : changed.description = some none) :
    preUpdate changed = { changed with description := some (some "") }
    ∧ (preUpdate changed).description = some (some "") := by
  constructor <;> simp [preUpdate, h]

/-- Witness for `preUpdate_coerces_null_description` at the change data
`{ system: { description: { value: null } } }`. -/
theorem preUpdate_coerces_null_description_witness :
    ItemUpdateData.description { description := some none } = some none
    ∧ (preUpdate { description := some none }).description = some (some "") :=
  ⟨rfl, (preUpdate_coerces_null_description { description := some none } rfl).2⟩

/-- C8: For every item with a nonempty type, `getRollOptions` invoked with its
default prefix (the item's type) returns a list that contains
`<item-type>:<slug>` (slug falling back to the sluggified name),
`<item-type>:trait:<t>` for every trait `t` of the item, and
`<item-type>:level:<n>` whenever the item has a level. -/
theorem getRollOptions_default_membership (item : ItemData) (h : item.type ≠ "") :
    ((item.type ++ ":" ++ (match item.slug with
        | some s => s
        | none => sluggify item.name)) ∈ getRollOptionsDefault item)
    ∧ (∀ t ∈ item.traits, (item.type ++ ":trait:" ++ t) ∈ getRollOptionsDefault item)
    ∧ (∀ n, item.level = some n →
        (item.type ++ ":level:" ++ toString n) ∈ getRollOptionsDefault item) := by
  have hd : (if item.type ≠ "" then item.type ++ ":" else "") = item.type ++ ":" := if_pos h
  refine ⟨?_, ?_, ?_⟩
  · cases hc : item.consumableType <;> cases hl : item.level <;>
      by_cases hi : item.type = "item" ∨ item.type = "" <;>
        simp [getRollOptionsDefault, getRollOptions, hc, hl, hi, hd]
  · intro t ht
    have hx : ∃ a ∈ item.traits,
        item.type ++ ":" ++ ("trait:" ++ a) = item.type ++ ":" ++ ("trait:" ++ t) :=
      ⟨t, ht, rfl⟩
    rw [str_concat_trait]
    cases hc : item.consumableType <;> cases hl : item.level <;>
      by_cases hi : item.type = "item" ∨ item.type = "" <;>
        simp [getRollOptionsDefault, getRollOptions, hc, hl, hi, hd] <;>
        first
          | exact hx
          | exact Or.inr (Or.inr hx)
          | exact Or.inr (Or.inr (Or.inl hx))
          | exact Or.inr (Or.inr (Or.inr hx))
          | exact Or.inr (Or.inr (Or.inr (Or.inl hx)))
  · intro n hn
    have hlev : item.type ++ (":" ++ ("level:" ++ toString n)) =
        item.type ++ (":level:" ++ toString n) := by
      rw [← String.append_assoc ":" "level:" (toString n)]
      rfl
    rw [str_concat_level]
    cases hc : item.consumableType <;>
      by_cases hi : item.type = "item" ∨ item.type = "" <;>
        simp [getRollOptionsDefault, getRollOptions, hc, hn, hi, hd, String.append_assoc] <;>
        first
          | exact Or.inr (Or.inr (Or.inr hlev))
          | exact Or.inr (Or.inr (Or.inr (Or.inl hlev)))
          | exact Or.inr (Or.inr (Or.inr (Or.inr hlev)))
          | exact Or.inr (Or.inr (Or.inr (Or.inr (Or.inl hlev))))

end Item

namespace Item

/-- A feat item without an explicit slug, with one trait and a level. -/
def sampleFeat : ItemData :=
  { id := "abc123"
    type := "feat"
    name := "Lightning Reflexes"
    slug := none
    traits := ["general"]
    level := some 3
    isFeature := false
    consumableType := none }

/-- Witness for `getRollOptions_default_membership` at a concrete feat item. -/
theorem getRollOptions_default_membership_witness :
    (("feat" ++ ":" ++ sluggify "Lightning Reflexes") ∈ getRollOptionsDefault sampleFeat)
    ∧ (("feat" ++ ":trait:" ++ "general") ∈ getRollOptionsDefault sampleFeat)
    ∧ (("feat" ++ ":level:" ++ toString (3 : ℤ)) ∈ getRollOptionsDefault sampleFeat) :=
  ⟨(getRollOptions_default_membership sampleFeat (by decide)).1,
   (getRollOptions_default_membership sampleFeat (by decide)).2.1 "general" (by decide),
   (getRollOptions_default_membership sampleFeat (by decide)).2.2 3 rfl⟩

end Item
